import Mathlib

/-!
Verification of the refresh-token lifecycle core of a session-management
service (token issuance, single-use rotation, reuse detection, revocation).

The development shallowly embeds the session manager (`AuthService`), the
token utilities (`signAccessToken`, `signRefreshToken`, `verifyRefreshToken`,
`extractTokenExpiration`) and the password utilities (`comparePassword`).
The backing token store (`RefreshTokenRepository`) and the user directory
(`UsersService`) are collaborators whose code is not part of the core
sources; their operations are modelled from the specification and marked as
such in their doc comments.  Asynchronous calls are modelled as explicit
state passing over a `StoreState`; exceptions are modelled with `Except`
over the exception taxonomy `Exn`.  Time is an integer clock (`now`); the
store additionally records the ordered list of mutation events
(`StoreEvent`) performed by a call, so that temporal ordering claims can be
stated.
-/

deriving instance DecidableEq for Except

/-- The exception taxonomy of the service.  `unauthorized` models
`UnauthorizedException` (the codec-level invalid/expired-token and
signing failures), the three `refreshToken` constructors model the
dedicated auth exceptions, and `internalServerError` models
`InternalServerErrorException` (the generic infrastructure failure). -/
inductive Exn where
  | unauthorized : Exn
  | reusedRefreshToken : Exn
  | revokedRefreshToken : Exn
  | expiredRefreshToken : Exn
  | internalServerError : Exn
deriving DecidableEq, Repr

/-- The claims carried by a signed token (`TokenPayload` in token.util). -/
structure TokenPayload where
  sub : String
  email : String
  displayName : Option String := none
  typ : Option String := none
deriving DecidableEq, Repr

/-- `UserInfo` from token.util: the identity handed to the signers. -/
structure UserInfo where
  id : String
  email : String
  displayName : Option String := none
deriving DecidableEq, Repr

/-- A row of the external user directory (`UsersService`), as read by the
core: identity fields plus the stored password hash. -/
structure UserRecord where
  id : String
  email : String
  displayName : Option String := none
  passwordHash : String
deriving DecidableEq, Repr

/-- A non-verifying decode of a token, keeping only what
`extractTokenExpiration` inspects: the `exp` claim when it is present,
numeric and integer-valued (`none` covers a missing or non-numeric `exp`). -/
structure DecodedJwt where
  exp : Option Int := none
deriving DecidableEq, Repr

/-- A persisted refresh-token record (`RefreshTokenRecord`): identity,
owner, the raw-comparable token value, timestamps and the two status
fields (`revokedAt`, `replacedByRecordId`). -/
structure RefreshTokenRecord where
  id : String
  ownerUserId : String
  tokenValue : String
  issuedAt : Int := 0
  expiresAt : Int
  revokedAt : Option Int := none
  replacedByRecordId : Option String := none
deriving DecidableEq, Repr

/-- The state of the token store: the persisted records (in insertion
order, most recent last) and a counter used to generate fresh record ids. -/
structure StoreState where
  records : List RefreshTokenRecord
  nextId : Nat := 0
deriving DecidableEq, Repr

/-- A store mutation performed during a call, in execution order. -/
inductive StoreEvent where
  | saved : String → StoreEvent
  | markedReplaced : String → String → StoreEvent
  | revoked : String → StoreEvent
  | revokedAll : String → StoreEvent
deriving DecidableEq, Repr

/-- From token.util `extractTokenExpiration`: when the decoded token has a
truthy numeric `exp` claim it is returned, otherwise the default of seven
days (604800 seconds) past `now` is returned.  Note the source guard is
`decodedToken?.exp && typeof decodedToken.exp === 'number'`: a numeric
`exp` equal to `0` is falsy and therefore falls through to the default. -/
def extractTokenExpiration (decoded : Option DecodedJwt) (now : Int) : Int :=
  match decoded with
  | some d =>
    match d.exp with
    | some e => if e ≠ 0 then e else now + 604800
    | none => now + 604800
  | none => now + 604800

/-- Modelled from the spec: `RefreshTokenRepository.findByUserId` returns
all records (any status) whose owner is the given user. -/
def findByUserId (st : StoreState) (userId : String) : List RefreshTokenRecord :=
  st.records.filter (fun r => r.ownerUserId == userId)

/-- Modelled from the spec: `RefreshTokenRepository.findAll` returns a
bounded set of records (at most `limit`). -/
def findAll (st : StoreState) (limit : Nat) : List RefreshTokenRecord :=
  st.records.take limit

/-- Modelled from the spec: `RefreshTokenRepository.findMatchedToken`
linearly scans the candidate records for one whose stored value matches
the raw token; first match wins. -/
def findMatchedToken (records : List RefreshTokenRecord) (rawToken : String) :
    Option RefreshTokenRecord :=
  records.find? (fun r => r.tokenValue == rawToken)

/-- Modelled from the spec: `RefreshTokenRepository.revoke` sets
`revokedAt := now` on the record with the given id; idempotent, revoking
an already-revoked record is a no-op. -/
def revoke (st : StoreState) (recordId : String) (now : Int) : StoreState :=
  { st with records := st.records.map (fun r =>
      if r.id == recordId && r.revokedAt.isNone then
        { r with revokedAt := some now }
      else r) }

/-- Modelled from the spec: `RefreshTokenRepository.revokeAllForUser` bulk
revokes every active record of the given user. -/
def revokeAllForUser (st : StoreState) (userId : String) (now : Int) : StoreState :=
  { st with records := st.records.map (fun r =>
      if r.ownerUserId == userId && r.revokedAt.isNone then
        { r with revokedAt := some now }
      else r) }

/-- Modelled from the spec: `RefreshTokenRepository.markAsReplaced` sets
`replacedByRecordId` on the old record to the new record's id. -/
def markAsReplaced (st : StoreState) (oldId newId : String) : StoreState :=
  { st with records := st.records.map (fun r =>
      if r.id == oldId then { r with replacedByRecordId := some newId } else r) }

/-- Modelled from the spec: `RefreshTokenRepository.save` persists a new
record for the raw token, its store-side expiry computed from the token's
own (unverified) decoded `exp` claim via `extractTokenExpiration`; returns
the saved record with its generated id. -/
def save (decode : String → Option DecodedJwt) (st : StoreState)
    (userId rawToken : String) (now : Int) : RefreshTokenRecord × StoreState :=
  let rec0 : RefreshTokenRecord :=
    { id := "rtk" ++ toString st.nextId
      ownerUserId := userId
      tokenValue := rawToken
      issuedAt := now
      expiresAt := extractTokenExpiration (decode rawToken) now
      revokedAt := none
      replacedByRecordId := none }
  (rec0, { records := st.records ++ [rec0], nextId := st.nextId + 1 })

/-- The environment of collaborator primitives injected into the service:
the raw JWT operations (which may fail, modelled by `Option`), the
non-verifying decode, the user directory lookup (which may throw any
exception) and the raw bcrypt comparison. -/
structure AuthEnv where
  verifyAsync : String → Option TokenPayload
  signA : UserInfo → Option String
  signR : UserInfo → Option String
  decode : String → Option DecodedJwt
  findByEmail : String → Except Exn (Option UserRecord)
  bcryptCompare : String → String → Option Bool

/-- From token.util `signAccessToken`: delegates to the JWT signer and
converts any signing failure into an `UnauthorizedException`. -/
def signAccessToken (signA : UserInfo → Option String) (user : UserInfo) :
    Except Exn String :=
  match signA user with
  | some t => .ok t
  | none => .error .unauthorized

/-- From token.util `signRefreshToken`: delegates to the JWT signer (with
the refresh secret and TTL) and converts any signing failure into an
`UnauthorizedException`. -/
def signRefreshToken (signR : UserInfo → Option String) (user : UserInfo) :
    Except Exn String :=
  match signR user with
  | some t => .ok t
  | none => .error .unauthorized

/-- From token.util `verifyRefreshToken`: delegates to the JWT verifier
and converts any failure (bad signature, malformed, expired) into one and
the same `UnauthorizedException`. -/
def verifyRefreshToken (verifyAsync : String → Option TokenPayload) (token : String) :
    Except Exn TokenPayload :=
  match verifyAsync token with
  | some p => .ok p
  | none => .error .unauthorized

/-- Modelled from the spec: `RefreshTokenRepository.createRefreshToken`
generates and signs a new refresh token value (not yet persisted),
delegating to `signRefreshToken`. -/
def createRefreshToken (env : AuthEnv) (user : UserInfo) : Except Exn String :=
  signRefreshToken env.signR user

/-- From bcrypt.util `comparePassword`: delegates to bcrypt and wraps an
underlying computation failure as an `InternalServerErrorException`;
a mismatch is `ok false`, not an error. -/
def comparePassword (bcryptCompare : String → String → Option Bool)
    (plainText hash : String) : Except Exn Bool :=
  match bcryptCompare plainText hash with
  | some b => .ok b
  | none => .error .internalServerError

/-- From `AuthService.validateUser`: look the user up by email, return
`none` on not-found or password mismatch, the identity on success, and
wrap any exception of the body as `InternalServerErrorException`. -/
def validateUser (env : AuthEnv) (email password : String) :
    Except Exn (Option UserInfo) :=
  let body : Except Exn (Option UserInfo) :=
    match env.findByEmail email with
    | .error e => .error e
    | .ok none => .ok none
    | .ok (some u) =>
      match comparePassword env.bcryptCompare password u.passwordHash with
      | .error e => .error e
      | .ok true => .ok (some { id := u.id, email := u.email, displayName := u.displayName })
      | .ok false => .ok none
  match body with
  | .error _ => .error .internalServerError
  | ok => ok

/-- The result of a successful token issuance or rotation. -/
structure RefreshResult where
  access_token : String
  refresh_token : String
  refresh_token_id : String
deriving DecidableEq, Repr

/-- The catch clause of `AuthService.refresh`: the three dedicated auth
exceptions are re-thrown unchanged, every other exception is replaced by
the generic `InternalServerErrorException`. -/
def rethrowKnown (e : Exn) : Exn :=
  match e with
  | .reusedRefreshToken => .reusedRefreshToken
  | .revokedRefreshToken => .revokedRefreshToken
  | .expiredRefreshToken => .expiredRefreshToken
  | _ => .internalServerError

/-- The local `user` object built by step 7 of `AuthService.refresh`: the
verified subject and email with the freshly looked-up display name
(`userData?.displayName`: optional chaining, absent when the lookup
returned null). -/
def rotatedUser (payload : TokenPayload) (userData : Option UserRecord) :
    UserInfo :=
  { id := payload.sub
    email := payload.email
    displayName := userData.bind (fun u => u.displayName) }

/-- The try-block of `AuthService.refresh`: verify the raw token, load the
subject's records, match the raw value; no match revokes the whole subject
lineage and throws reuse; a revoked match throws revoked; an expired match
is revoked and throws expired; otherwise re-fetch the user profile, sign a
new access token, create and persist a new refresh token, and only then
mark the old record as replaced by the new one. -/
def refreshTry (env : AuthEnv) (st : StoreState) (rawRefreshToken : String)
    (now : Int) : Except Exn RefreshResult × StoreState × List StoreEvent :=
  match verifyRefreshToken env.verifyAsync rawRefreshToken with
  | .error e => (.error e, st, [])
  | .ok payload =>
    match findMatchedToken (findByUserId st payload.sub) rawRefreshToken with
    | none =>
      (.error .reusedRefreshToken, revokeAllForUser st payload.sub now,
       [.revokedAll payload.sub])
    | some matched =>
      if matched.revokedAt.isSome then
        (.error .revokedRefreshToken, st, [])
      else if matched.expiresAt ≤ now then
        (.error .expiredRefreshToken, revoke st matched.id now,
         [.revoked matched.id])
      else
        match env.findByEmail payload.email with
        | .error e => (.error e, st, [])
        | .ok userData =>
          match signAccessToken env.signA (rotatedUser payload userData) with
          | .error e => (.error e, st, [])
          | .ok access_token =>
            match createRefreshToken env (rotatedUser payload userData) with
            | .error e => (.error e, st, [])
            | .ok refresh_token =>
              match save env.decode st (rotatedUser payload userData).id
                  refresh_token now with
              | (saved, st1) =>
                (.ok { access_token := access_token
                       refresh_token := refresh_token
                       refresh_token_id := saved.id },
                 markAsReplaced st1 matched.id saved.id,
                 [.saved saved.id, .markedReplaced matched.id saved.id])

/-- `AuthService.refresh`: the try-block wrapped in the catch clause; a
state mutation already performed when an exception is raised persists. -/
def refresh (env : AuthEnv) (st : StoreState) (rawRefreshToken : String)
    (now : Int) : Except Exn RefreshResult × StoreState × List StoreEvent :=
  match refreshTry env st rawRefreshToken now with
  | (.error e, st1, evs) => (.error (rethrowKnown e), st1, evs)
  | r => r

/-- The result of `AuthService.logout`. -/
structure LogoutResult where
  ok : Bool
deriving DecidableEq, Repr

/-- From `AuthService.logout`: scan a bounded set (500) of records for a
value match, revoke the match when there is one, and report success either
way. -/
def logout (st : StoreState) (rawRefreshToken : String) (now : Int) :
    Except Exn LogoutResult × StoreState :=
  match findMatchedToken (findAll st 500) rawRefreshToken with
  | some matched => (.ok { ok := true }, revoke st matched.id now)
  | none => (.ok { ok := true }, st)

/-- Concrete payload used in witnesses: subject `u1`. -/
def cPayload : TokenPayload := { sub := "u1", email := "a@b.c" }

/-- Concrete active record matching the raw token `tokA`. -/
def cRecA : RefreshTokenRecord :=
  { id := "r1", ownerUserId := "u1", tokenValue := "tokA", expiresAt := 200 }

/-- Concrete active record for a different raw value `tokOld`. -/
def cRecOld : RefreshTokenRecord :=
  { id := "r0", ownerUserId := "u1", tokenValue := "tokOld", expiresAt := 300 }

/-- Concrete record that is both revoked and expired at time 100. -/
def cRecRevExp : RefreshTokenRecord :=
  { id := "r2", ownerUserId := "u1", tokenValue := "tokA", expiresAt := 90,
    revokedAt := some 50 }

/-- Concrete record whose expiry is exactly the clock value 100. -/
def cRecExpNow : RefreshTokenRecord :=
  { id := "r3", ownerUserId := "u1", tokenValue := "tokA", expiresAt := 100 }

/-- Concrete revoked (but unexpired) record matching `tokA`. -/
def cRecRev : RefreshTokenRecord :=
  { id := "r4", ownerUserId := "u1", tokenValue := "tokA", expiresAt := 200,
    revokedAt := some 50 }

/-- Concrete collaborator environment: only `tokA` verifies, signing always
succeeds, the user directory is empty. -/
def cEnv : AuthEnv :=
  { verifyAsync := fun t => if t == "tokA" then some cPayload else none
    signA := fun _ => some "acc"
    signR := fun _ => some "tokB"
    decode := fun _ => none
    findByEmail := fun _ => .ok none
    bcryptCompare := fun _ _ => some true }

/-- Store holding one record of `u1` that does not match `tokA`. -/
def cStNoMatch : StoreState := { records := [cRecOld], nextId := 1 }

/-- Store holding the active record matching `tokA`. -/
def cStMatch : StoreState := { records := [cRecA], nextId := 1 }

/-- Store holding the revoked-and-expired record matching `tokA`. -/
def cStRevExp : StoreState := { records := [cRecRevExp], nextId := 1 }

/-- Store holding the exactly-at-expiry record matching `tokA`. -/
def cStExpNow : StoreState := { records := [cRecExpNow], nextId := 1 }

/-- Store holding the revoked record matching `tokA` plus another record. -/
def cStRev : StoreState := { records := [cRecRev, cRecOld], nextId := 2 }

/-- The rotation result produced by `cEnv` on `cStMatch`. -/
def cRes : RefreshResult :=
  { access_token := "acc", refresh_token := "tokB", refresh_token_id := "rtk1" }

/-- Concrete user-directory row for the `validateUser` witnesses. -/
def cUser : UserRecord := { id := "u1", email := "a@b.c", passwordHash := "hash1" }

/-- Environment for the `validateUser` witnesses: one known user, password
`pw` against hash `hash1`. -/
def cEnvV : AuthEnv :=
  { cEnv with
    findByEmail := fun e => if e == "a@b.c" then .ok (some cUser) else .ok none
    bcryptCompare := fun p h => some (p == "pw" && h == "hash1") }

theorem revokeAllForUser_owner_revoked (st : StoreState) (userId : String)
    (now : Int) : ∀ r ∈ (revokeAllForUser st userId now).records,
      r.ownerUserId = userId → r.revokedAt.isSome := by
  intro r hr hown
  simp only [revokeAllForUser, List.mem_map] at hr
  obtain ⟨r0, _, hr0⟩ := hr
  split at hr0
  · subst hr0
    simp
  · subst hr0
    rename_i hcond
    simp only [Bool.and_eq_true, beq_iff_eq, not_and] at hcond
    cases hrev : r0.revokedAt with
    | none => exact absurd (hcond hown) (by simp [hrev])
    | some t => simp [hrev]

theorem mem_revoke_of_ne (st : StoreState) (recordId : String) (now : Int)
    (r : RefreshTokenRecord) (hmem : r ∈ st.records) (hne : r.id ≠ recordId) :
    r ∈ (revoke st recordId now).records := by
  simp only [revoke, List.mem_map]
  refine ⟨r, hmem, ?_⟩
  rw [if_neg]
  simp [hne]

theorem refreshTry_verify_error (env : AuthEnv) (st : StoreState) (raw : String)
    (now : Int) (e : Exn)
    (hv : verifyRefreshToken env.verifyAsync raw = .error e) :
    refreshTry env st raw now = (.error e, st, []) := by
  simp only [refreshTry, hv]

theorem refreshTry_reuse (env : AuthEnv) (st : StoreState) (raw : String)
    (now : Int) (payload : TokenPayload)
    (hv : verifyRefreshToken env.verifyAsync raw = .ok payload)
    (hm : findMatchedToken (findByUserId st payload.sub) raw = none) :
    refreshTry env st raw now =
      (.error .reusedRefreshToken, revokeAllForUser st payload.sub now,
       [.revokedAll payload.sub]) := by
  simp only [refreshTry, hv, hm]

theorem refreshTry_revoked (env : AuthEnv) (st : StoreState) (raw : String)
    (now : Int) (payload : TokenPayload) (matched : RefreshTokenRecord)
    (hv : verifyRefreshToken env.verifyAsync raw = .ok payload)
    (hm : findMatchedToken (findByUserId st payload.sub) raw = some matched)
    (hr : matched.revokedAt.isSome = true) :
    refreshTry env st raw now = (.error .revokedRefreshToken, st, []) := by
  simp only [refreshTry, hv, hm, hr, if_true]

theorem refreshTry_expired (env : AuthEnv) (st : StoreState) (raw : String)
    (now : Int) (payload : TokenPayload) (matched : RefreshTokenRecord)
    (hv : verifyRefreshToken env.verifyAsync raw = .ok payload)
    (hm : findMatchedToken (findByUserId st payload.sub) raw = some matched)
    (hr : matched.revokedAt = none)
    (he : matched.expiresAt ≤ now) :
    refreshTry env st raw now =
      (.error .expiredRefreshToken, revoke st matched.id now,
       [.revoked matched.id]) := by
  simp only [refreshTry, hv, hm, hr, Option.isSome_none, Bool.false_eq_true,
    if_false, if_pos he]

theorem refreshTry_rotate (env : AuthEnv) (st : StoreState) (raw : String)
    (now : Int) (payload : TokenPayload) (matched : RefreshTokenRecord)
    (userData : Option UserRecord) (a rt : String)
    (hv : verifyRefreshToken env.verifyAsync raw = .ok payload)
    (hm : findMatchedToken (findByUserId st payload.sub) raw = some matched)
    (hr : matched.revokedAt = none)
    (he : ¬ matched.expiresAt ≤ now)
    (hu : env.findByEmail payload.email = .ok userData)
    (ha : env.signA (rotatedUser payload userData) = some a)
    (hb : env.signR (rotatedUser payload userData) = some rt) :
    refreshTry env st raw now =
      (.ok { access_token := a, refresh_token := rt,
             refresh_token_id := "rtk" ++ toString st.nextId },
       markAsReplaced (save env.decode st payload.sub rt now).2 matched.id
         ("rtk" ++ toString st.nextId),
       [.saved ("rtk" ++ toString st.nextId),
        .markedReplaced matched.id ("rtk" ++ toString st.nextId)]) := by
  simp only [rotatedUser] at ha hb
  simp only [refreshTry, hv, hm, hr, Option.isSome_none, Bool.false_eq_true,
    if_false, if_neg he, hu, signAccessToken, createRefreshToken,
    signRefreshToken, ha, hb, save, rotatedUser]

theorem refreshTry_shape (env : AuthEnv) (st : StoreState) (raw : String)
    (now : Int) :
    (∃ e st1 evs, refreshTry env st raw now = (.error e, st1, evs)) ∨
    (∃ res st1 oldId, refreshTry env st raw now =
      (.ok res, st1,
       [StoreEvent.saved res.refresh_token_id,
        StoreEvent.markedReplaced oldId res.refresh_token_id])) := by
  unfold refreshTry
  split
  · exact Or.inl ⟨_, _, _, rfl⟩
  split
  · exact Or.inl ⟨_, _, _, rfl⟩
  split
  · exact Or.inl ⟨_, _, _, rfl⟩
  split
  · exact Or.inl ⟨_, _, _, rfl⟩
  split
  · exact Or.inl ⟨_, _, _, rfl⟩
  split
  · exact Or.inl ⟨_, _, _, rfl⟩
  split
  · exact Or.inl ⟨_, _, _, rfl⟩
  · split
    exact Or.inr ⟨_, _, _, rfl⟩

/-- C1: a raw token whose signature verifies but that matches no stored
record of its subject makes `refresh` revoke every record of that subject
and fail with `ReusedRefreshTokenError`. -/
theorem refresh_reuse_revokes_all (env : AuthEnv) (st : StoreState)
    (raw : String) (now : Int) (payload : TokenPayload)
    (hv : verifyRefreshToken env.verifyAsync raw = .ok payload)
    (hm : findMatchedToken (findByUserId st payload.sub) raw = none) :
    (refresh env st raw now).1 = .error .reusedRefreshToken ∧
    (refresh env st raw now).2.1 = revokeAllForUser st payload.sub now ∧
    ∀ r ∈ (refresh env st raw now).2.1.records,
      r.ownerUserId = payload.sub → r.revokedAt.isSome := by
  have h2 : refresh env st raw now =
      (.error .reusedRefreshToken, revokeAllForUser st payload.sub now,
       [.revokedAll payload.sub]) := by
    simp only [refresh, refreshTry_reuse env st raw now payload hv hm,
      rethrowKnown]
  rw [h2]
  exact ⟨rfl, rfl, fun r hr hown =>
    revokeAllForUser_owner_revoked st payload.sub now r hr hown⟩

theorem refresh_reuse_revokes_all_witness :
    verifyRefreshToken cEnv.verifyAsync "tokA" = .ok cPayload ∧
    findMatchedToken (findByUserId cStNoMatch cPayload.sub) "tokA" = none ∧
    (refresh cEnv cStNoMatch "tokA" 100).1 = .error .reusedRefreshToken :=
  ⟨by decide, by decide,
    (refresh_reuse_revokes_all cEnv cStNoMatch "tokA" 100 cPayload
      (by decide) (by decide)).1⟩

/-- C4 counterexample: a matched record that is both revoked and expired
fails with `RevokedRefreshTokenError`, not `ExpiredRefreshTokenError`, and
is not revoked again — the claim as stated is false for records whose
`revokedAt` is set, because the revocation check precedes the expiry
check. -/
theorem refresh_expired_claim_counterexample :
    findMatchedToken (findByUserId cStRevExp cPayload.sub) "tokA" =
      some cRecRevExp ∧
    cRecRevExp.expiresAt ≤ 100 ∧
    (refresh cEnv cStRevExp "tokA" 100).1 = .error .revokedRefreshToken ∧
    (refresh cEnv cStRevExp "tokA" 100).1 ≠ .error .expiredRefreshToken ∧
    (refresh cEnv cStRevExp "tokA" 100).2.1 = cStRevExp := by decide

/-- C4 (amended): a matched record that is not revoked and whose
`expiresAt` is at or before the current time (boundary included — fails
closed) makes `refresh` revoke that single record, leave every other
record unchanged, and fail with `ExpiredRefreshTokenError`. -/
theorem refresh_expired_revokes_single (env : AuthEnv) (st : StoreState)
    (raw : String) (now : Int) (payload : TokenPayload)
    (matched : RefreshTokenRecord)
    (hv : verifyRefreshToken env.verifyAsync raw = .ok payload)
    (hm : findMatchedToken (findByUserId st payload.sub) raw = some matched)
    (hr : matched.revokedAt = none)
    (he : matched.expiresAt ≤ now) :
    (refresh env st raw now).1 = .error .expiredRefreshToken ∧
    (refresh env st raw now).2.1 = revoke st matched.id now ∧
    (refresh env st raw now).2.2 = [StoreEvent.revoked matched.id] ∧
    ∀ r ∈ st.records, r.id ≠ matched.id →
      r ∈ (refresh env st raw now).2.1.records := by
  have h2 : refresh env st raw now =
      (.error .expiredRefreshToken, revoke st matched.id now,
       [.revoked matched.id]) := by
    simp only [refresh,
      refreshTry_expired env st raw now payload matched hv hm hr he,
      rethrowKnown]
  rw [h2]
  exact ⟨rfl, rfl, rfl, fun r hmem hne =>
    mem_revoke_of_ne st matched.id now r hmem hne⟩

theorem refresh_expired_revokes_single_witness :
    cRecExpNow.expiresAt = 100 ∧ cRecExpNow.revokedAt = none ∧
    (refresh cEnv cStExpNow "tokA" 100).1 = .error .expiredRefreshToken :=
  ⟨by decide, by decide,
    (refresh_expired_revokes_single cEnv cStExpNow "tokA" 100 cPayload
      cRecExpNow (by decide) (by decide) (by decide) (by decide)).1⟩

/-- C5: a matched record whose `revokedAt` is set makes `refresh` fail
with `RevokedRefreshTokenError` while the store state is left exactly as
it was — no record is mutated and no cascading revocation happens. -/
theorem refresh_revoked_no_mutation (env : AuthEnv) (st : StoreState)
    (raw : String) (now : Int) (payload : TokenPayload)
    (matched : RefreshTokenRecord)
    (hv : verifyRefreshToken env.verifyAsync raw = .ok payload)
    (hm : findMatchedToken (findByUserId st payload.sub) raw = some matched)
    (hr : matched.revokedAt.isSome = true) :
    (refresh env st raw now).1 = .error .revokedRefreshToken ∧
    (refresh env st raw now).2.1 = st ∧
    (refresh env st raw now).2.2 = [] := by
  have h2 : refresh env st raw now = (.error .revokedRefreshToken, st, []) := by
    simp only [refresh,
      refreshTry_revoked env st raw now payload matched hv hm hr,
      rethrowKnown]
  rw [h2]
  exact ⟨rfl, rfl, rfl⟩

theorem refresh_revoked_no_mutation_witness :
    cRecRev.revokedAt.isSome = true ∧
    (refresh cEnv cStRev "tokA" 100).1 = .error .revokedRefreshToken ∧
    (refresh cEnv cStRev "tokA" 100).2.1 = cStRev :=
  ⟨by decide,
    (refresh_revoked_no_mutation cEnv cStRev "tokA" 100 cPayload cRecRev
      (by decide) (by decide) (by decide)).1,
    (refresh_revoked_no_mutation cEnv cStRev "tokA" 100 cPayload cRecRev
      (by decide) (by decide) (by decide)).2.1⟩

/-- C2: every successful rotation emits exactly the event sequence "save
the new record, then mark the old record replaced-by the new record's id";
the persist therefore strictly precedes the mark and the reverse order
never occurs. -/
theorem refresh_persist_before_mark (env : AuthEnv) (st : StoreState)
    (raw : String) (now : Int) (res : RefreshResult)
    (h : (refresh env st raw now).1 = .ok res) :
    ∃ oldId, (refresh env st raw now).2.2 =
      [StoreEvent.saved res.refresh_token_id,
       StoreEvent.markedReplaced oldId res.refresh_token_id] := by
  rcases refreshTry_shape env st raw now with
    ⟨e, st1, evs, hq⟩ | ⟨res1, st1, oldId, hq⟩
  · have h2 : refresh env st raw now = (.error (rethrowKnown e), st1, evs) := by
      simp only [refresh, hq]
    rw [h2] at h
    exact absurd h (by simp)
  · have h2 : refresh env st raw now =
        (.ok res1, st1,
         [StoreEvent.saved res1.refresh_token_id,
          StoreEvent.markedReplaced oldId res1.refresh_token_id]) := by
      simp only [refresh, hq]
    rw [h2] at h ⊢
    obtain rfl : res1 = res := by simpa using h
    exact ⟨oldId, rfl⟩

theorem refresh_persist_before_mark_witness :
    (refresh cEnv cStMatch "tokA" 100).1 = .ok cRes ∧
    ∃ oldId, (refresh cEnv cStMatch "tokA" 100).2.2 =
      [StoreEvent.saved cRes.refresh_token_id,
       StoreEvent.markedReplaced oldId cRes.refresh_token_id] :=
  ⟨by decide,
    refresh_persist_before_mark cEnv cStMatch "tokA" 100 cRes (by decide)⟩

/-- C3 counterexample: a raw token failing signature verification raises
the codec-level invalid-token error (`UnauthorizedException`) inside
`refresh`, yet `refresh` surfaces the generic infrastructure failure, not
that error — so the invalid-token error does not propagate unchanged and
the claim that all four security errors propagate is false. -/
theorem refresh_invalid_token_counterexample :
    verifyRefreshToken cEnv.verifyAsync "garbage" = .error .unauthorized ∧
    (refresh cEnv cStMatch "garbage" 100).1 = .error .internalServerError ∧
    (refresh cEnv cStMatch "garbage" 100).1 ≠ .error .unauthorized := by decide

/-- C3 (amended): exactly the three dedicated errors (reused, revoked,
expired) propagate unchanged through `refresh`; the codec-level
invalid-token error and every other internal failure are normalized to
the generic infrastructure failure (and the store state and events of the
try-block are preserved either way). -/
theorem refresh_error_taxonomy (env : AuthEnv) (st : StoreState)
    (raw : String) (now : Int) (e : Exn) (st1 : StoreState)
    (evs : List StoreEvent)
    (h : refreshTry env st raw now = (.error e, st1, evs)) :
    (refresh env st raw now).2 = (st1, evs) ∧
    ((e = .reusedRefreshToken ∨ e = .revokedRefreshToken ∨
        e = .expiredRefreshToken) →
      (refresh env st raw now).1 = .error e) ∧
    (e ≠ .reusedRefreshToken → e ≠ .revokedRefreshToken →
      e ≠ .expiredRefreshToken →
      (refresh env st raw now).1 = .error .internalServerError) := by
  have h2 : refresh env st raw now = (.error (rethrowKnown e), st1, evs) := by
    simp only [refresh, h]
  rw [h2]
  refine ⟨rfl, ?_, ?_⟩
  · rintro (rfl | rfl | rfl) <;> rfl
  · intro h1 h2 h3
    cases e
    · rfl
    · exact absurd rfl h1
    · exact absurd rfl h2
    · exact absurd rfl h3
    · rfl

theorem refresh_error_taxonomy_witness :
    refreshTry cEnv cStMatch "garbage" 100 =
      (.error .unauthorized, cStMatch, []) ∧
    (refresh cEnv cStMatch "garbage" 100).1 = .error .internalServerError :=
  ⟨by decide,
    (refresh_error_taxonomy cEnv cStMatch "garbage" 100 .unauthorized cStMatch
      [] (by decide)).2.2 (by decide) (by decide) (by decide)⟩

/-- C6: `validateUser` returns the identity for a valid (user, password)
pair; it returns the same `none` for an unknown email and for a wrong
password (the two cases indistinguishable to the caller) without
throwing; an exception from the lookup or from the hash comparison is
wrapped as the generic infrastructure failure. -/
theorem validateUser_cases (env : AuthEnv) (email password : String) :
    (∀ u, env.findByEmail email = .ok (some u) →
      env.bcryptCompare password u.passwordHash = some true →
      validateUser env email password =
        .ok (some { id := u.id, email := u.email,
                    displayName := u.displayName })) ∧
    (env.findByEmail email = .ok none →
      validateUser env email password = .ok none) ∧
    (∀ u, env.findByEmail email = .ok (some u) →
      env.bcryptCompare password u.passwordHash = some false →
      validateUser env email password = .ok none) ∧
    (∀ e, env.findByEmail email = .error e →
      validateUser env email password = .error .internalServerError) ∧
    (∀ u, env.findByEmail email = .ok (some u) →
      env.bcryptCompare password u.passwordHash = none →
      validateUser env email password = .error .internalServerError) := by
  refine ⟨?_, ?_, ?_, ?_, ?_⟩
  · intro u hf hc
    simp only [validateUser, hf, comparePassword, hc]
  · intro hf
    simp only [validateUser, hf]
  · intro u hf hc
    simp only [validateUser, hf, comparePassword, hc]
  · intro e hf
    simp only [validateUser, hf]
  · intro u hf hc
    simp only [validateUser, hf, comparePassword, hc]

theorem validateUser_cases_witness :
    cEnvV.findByEmail "a@b.c" = .ok (some cUser) ∧
    cEnvV.bcryptCompare "pw" "hash1" = some true ∧
    validateUser cEnvV "a@b.c" "pw" =
      .ok (some { id := "u1", email := "a@b.c", displayName := none }) :=
  ⟨by decide, by decide,
    (validateUser_cases cEnvV "a@b.c" "pw").1 cUser (by decide) (by decide)⟩

/-- C7: `logout` reports success for every input token; a match in the
bounded candidate set (limit 500) is revoked, no match leaves the store
untouched — logout is idempotent and its result never reveals whether
the token was valid. -/
theorem logout_always_ok (st : StoreState) (raw : String) (now : Int) :
    (logout st raw now).1 = .ok { ok := true } ∧
    (findMatchedToken (findAll st 500) raw = none →
      (logout st raw now).2 = st) ∧
    (∀ m, findMatchedToken (findAll st 500) raw = some m →
      (logout st raw now).2 = revoke st m.id now) := by
  refine ⟨?_, ?_, ?_⟩
  · cases hm : findMatchedToken (findAll st 500) raw <;> simp [logout, hm]
  · intro hm
    simp [logout, hm]
  · intro m hm
    simp [logout, hm]

theorem logout_always_ok_witness :
    findMatchedToken (findAll cStMatch 500) "garbage" = none ∧
    (logout cStMatch "garbage" 100).1 = .ok { ok := true } ∧
    (logout cStMatch "garbage" 100).2 = cStMatch :=
  ⟨by decide, (logout_always_ok cStMatch "garbage" 100).1,
    (logout_always_ok cStMatch "garbage" 100).2.1 (by decide)⟩

/-- C8: `verifyRefreshToken` either returns the claims or fails with one
single error kind; invalid-signature, malformed and expired inputs (all
modelled as verifier failures) produce the very same error, so callers
cannot distinguish them at this layer. -/
theorem verifyRefreshToken_single_error
    (verifyAsync : String → Option TokenPayload) (token : String) :
    (∀ e, verifyRefreshToken verifyAsync token = .error e →
      e = .unauthorized) ∧
    (∀ p, verifyAsync token = some p →
      verifyRefreshToken verifyAsync token = .ok p) ∧
    (verifyAsync token = none →
      verifyRefreshToken verifyAsync token = .error .unauthorized) := by
  refine ⟨?_, ?_, ?_⟩
  · intro e he
    cases hv : verifyAsync token with
    | some p => simp [verifyRefreshToken, hv] at he
    | none =>
      simp only [verifyRefreshToken, hv, Except.error.injEq] at he
      exact he.symm
  · intro p hp
    simp [verifyRefreshToken, hp]
  · intro hp
    simp [verifyRefreshToken, hp]

theorem verifyRefreshToken_single_error_witness :
    (fun _ => (none : Option TokenPayload)) "x" = none ∧
    verifyRefreshToken (fun _ => none) "x" = .error .unauthorized :=
  ⟨rfl, (verifyRefreshToken_single_error (fun _ => none) "x").2.2 rfl⟩

theorem extractTokenExpiration_ge (d : DecodedJwt) (now e : Int)
    (hnow : 0 ≤ now) (he : d.exp = some e) :
    e ≤ extractTokenExpiration (some d) now := by
  simp only [extractTokenExpiration, he]
  by_cases hz : e = 0
  · subst hz
    simp
    linarith
  · simp [hz]

/-- C9 counterexample: a decoded token carrying the numeric `exp` claim 0
is falsy in the source's guard, so the store expiry falls back to the
seven-day default instead of using the claim — the claim that a numeric
`exp` is always used as the store expiry is false. -/
theorem extractTokenExpiration_counterexample :
    (DecodedJwt.mk (some 0)).exp = some 0 ∧
    extractTokenExpiration (some (DecodedJwt.mk (some 0))) 100 =
      100 + 604800 ∧
    extractTokenExpiration (some (DecodedJwt.mk (some 0))) 100 ≠ 0 := by
  decide

/-- C9 (amended): the store-side expiry is always at least the decoded
token's `exp` claim; a nonzero numeric `exp` is used verbatim as the
store expiry, while a missing (or zero, being falsy) `exp` defaults to
seven days past now; records created by `save` inherit this bound. -/
theorem extractTokenExpiration_lower_bound (d : DecodedJwt) (now : Int)
    (hnow : 0 ≤ now) :
    (∀ e, d.exp = some e → e ≤ extractTokenExpiration (some d) now) ∧
    (∀ e, d.exp = some e → e ≠ 0 →
      extractTokenExpiration (some d) now = e) ∧
    ((d.exp = none ∨ d.exp = some 0) →
      extractTokenExpiration (some d) now = now + 604800) ∧
    (∀ (decode : String → Option DecodedJwt) (st : StoreState)
      (uid raw : String) (e : Int), decode raw = some d → d.exp = some e →
      e ≤ ((save decode st uid raw now).1).expiresAt) := by
  refine ⟨fun e he => extractTokenExpiration_ge d now e hnow he, ?_, ?_, ?_⟩
  · intro e he hz
    simp [extractTokenExpiration, he, hz]
  · rintro (h | h) <;> simp [extractTokenExpiration, h]
  · intro decode st uid raw e hdec he
    have hs : ((save decode st uid raw now).1).expiresAt =
        extractTokenExpiration (some d) now := by
      simp [save, hdec]
    rw [hs]
    exact extractTokenExpiration_ge d now e hnow he

theorem extractTokenExpiration_lower_bound_witness :
    (0 : Int) ≤ 100 ∧
    extractTokenExpiration (some (DecodedJwt.mk (some 5))) 100 = 5 :=
  ⟨by decide,
    (extractTokenExpiration_lower_bound (DecodedJwt.mk (some 5)) 100
      (by decide)).2.1 5 rfl (by decide)⟩

/-- C10: a rotation succeeds even when the token's subject is no longer
in the user directory: with `findByEmail` returning null at step 7,
`refresh` still returns new tokens and the identity handed to both
signers carries an absent display name. -/
theorem refresh_missing_user (env : AuthEnv) (st : StoreState) (raw : String)
    (now : Int) (payload : TokenPayload) (matched : RefreshTokenRecord)
    (a rt : String)
    (hv : verifyRefreshToken env.verifyAsync raw = .ok payload)
    (hm : findMatchedToken (findByUserId st payload.sub) raw = some matched)
    (hr : matched.revokedAt = none)
    (he : ¬ matched.expiresAt ≤ now)
    (hu : env.findByEmail payload.email = .ok none)
    (ha : env.signA { id := payload.sub, email := payload.email, displayName := none } = some a)
    (hb : env.signR { id := payload.sub, email := payload.email, displayName := none } = some rt) :
    (refresh env st raw now).1 =
      .ok { access_token := a, refresh_token := rt,
            refresh_token_id := "rtk" ++ toString st.nextId } := by
  have ha2 : env.signA (rotatedUser payload none) = some a := by
    simpa [rotatedUser] using ha
  have hb2 : env.signR (rotatedUser payload none) = some rt := by
    simpa [rotatedUser] using hb
  have h2 := refreshTry_rotate env st raw now payload matched none a rt hv hm
    hr he hu ha2 hb2
  have h3 : refresh env st raw now = refreshTry env st raw now := by
    simp only [refresh, h2]
  rw [h3, h2]

theorem refresh_missing_user_witness :
    cEnv.findByEmail cPayload.email = .ok none ∧
    (refresh cEnv cStMatch "tokA" 100).1 = .ok cRes :=
  ⟨by decide,
    refresh_missing_user cEnv cStMatch "tokA" 100 cPayload cRecA "acc" "tokB"
      (by decide) (by decide) (by decide) (by decide) (by decide) (by decide)
      (by decide)⟩
